import Mathlib

/-!
Verification of the Seagreen sampling/aggregation engine.

The Python sources (`src/tracker.py`, `src/seagreen.py`) are embedded
shallowly: Python floats are modelled as rationals `ℚ`, `time.time()`
calls become explicit `now` parameters, mutation of the tracker object
becomes explicit state passing, and exceptions become `Except` values
(for `generate_report`) or explicit outcome constructors (for the
sampling loop of `track_process`).
-/

/-- Embeds `ResourceSnapshot` from `src/tracker.py` (lines 12-18). -/
structure ResourceSnapshot where
  timestamp : ℚ
  cpu_percent : ℚ
  memory_mb : ℚ
  memory_percent : ℚ
deriving DecidableEq

/-- Embeds `SeagreenReport` from `src/tracker.py` (lines 21-32). -/
structure SeagreenReport where
  process_name : String
  duration_seconds : ℚ
  avg_cpu : ℚ
  peak_cpu : ℚ
  avg_memory_mb : ℚ
  peak_memory_mb : ℚ
  cpu_seconds : ℚ
  efficiency_score : ℚ
  seagreen_rating : String
deriving DecidableEq

/-- Embeds the mutable state of a `SeagreenTracker` instance
(`src/tracker.py` lines 50-54).  `process_name` stands for the value the
bound `psutil.Process` handle reports via `.name()`. -/
structure SeagreenTracker where
  pid : Nat
  process_name : String
  snapshots : List ResourceSnapshot
  start_time : Option ℚ
deriving DecidableEq

/-- One instantaneous reading from the OS, the data `take_snapshot`
obtains from the `psutil` handle (`src/tracker.py` lines 62-66). -/
structure SampleReading where
  cpu : ℚ
  mem_mb : ℚ
  mem_percent : ℚ
deriving DecidableEq

/-- Embeds `SeagreenTracker.start_monitoring` (`src/tracker.py` lines
56-58): unconditionally stores the current instant as `start_time`. -/
def start_monitoring (t : SeagreenTracker) (now : ℚ) : SeagreenTracker :=
  { t with start_time := some now }

/-- Embeds the state change of `SeagreenTracker.take_snapshot`
(`src/tracker.py` lines 60-75): build a snapshot from the reading, stamp
it with the current instant, append it, return it. -/
def take_snapshot (t : SeagreenTracker) (now : ℚ) (r : SampleReading) :
    SeagreenTracker × ResourceSnapshot :=
  let snapshot : ResourceSnapshot :=
    { timestamp := now
      cpu_percent := r.cpu
      memory_mb := r.mem_mb
      memory_percent := r.mem_percent }
  ({ t with snapshots := t.snapshots ++ [snapshot] }, snapshot)

/-- Python `max` over a nonempty list (`max(cpu_values)` at
`src/tracker.py` lines 89 and 91); the `[]` case is never reached by
`generate_report` and is given an arbitrary value. -/
def listMax : List ℚ → ℚ
  | [] => 0
  | [x] => x
  | x :: y :: t => max x (listMax (y :: t))

/-- Minimum of a nonempty list, used only to state properties that the
spec phrases in terms of `min(cpu values)`. -/
def listMin : List ℚ → ℚ
  | [] => 0
  | [x] => x
  | x :: y :: t => min x (listMin (y :: t))

/-- Embeds the efficiency computation of `generate_report`
(`src/tracker.py` lines 99-104): when `duration > 0` the score is
`max(0, min(100, 100 - avg_cpu * (duration / 60)))`, else `0`. -/
def efficiencyScore (avg_cpu duration : ℚ) : ℚ :=
  if duration > 0 then max 0 (min 100 (100 - (avg_cpu * (duration / 60)))) else 0

/-- Embeds the rating ladder of `generate_report` (`src/tracker.py`
lines 106-114), with the exact strings the code uses. -/
def seagreenRating (efficiency : ℚ) : String :=
  if efficiency ≥ 80 then "🌿🌿🌿 Excellent!"
  else if efficiency ≥ 60 then "🌿🌿 Good"
  else if efficiency ≥ 40 then "🌿 Fair"
  else "🍂 Needs Improvement"

/-- Embeds `SeagreenTracker.generate_report` (`src/tracker.py` lines
77-126).  `now` is the instant `time.time()` returns at line 82.  The
raised `ValueError` becomes `Except.error` with the exception's message;
the second component of the result is the tracker state after the call
(the Python method contains no assignment to `self`, so the state passes
through unchanged). -/
def generate_report (t : SeagreenTracker) (now : ℚ) :
    Except String SeagreenReport × SeagreenTracker :=
  match t.snapshots, t.start_time with
  | [], _ => (Except.error "No monitoring data collected!", t)
  | _ :: _, none => (Except.error "No monitoring data collected!", t)
  | s0 :: rest, some st =>
    let duration := now - st
    let cpu_values := (s0 :: rest).map ResourceSnapshot.cpu_percent
    let mem_values := (s0 :: rest).map ResourceSnapshot.memory_mb
    let avg_cpu := cpu_values.sum / (cpu_values.length : ℚ)
    let peak_cpu := listMax cpu_values
    let avg_memory := mem_values.sum / (mem_values.length : ℚ)
    let peak_memory := listMax mem_values
    let cpu_seconds := (avg_cpu / 100) * duration
    let efficiency := efficiencyScore avg_cpu duration
    let rating := seagreenRating efficiency
    (Except.ok
      { process_name := t.process_name
        duration_seconds := duration
        avg_cpu := avg_cpu
        peak_cpu := peak_cpu
        avg_memory_mb := avg_memory
        peak_memory_mb := peak_memory
        cpu_seconds := cpu_seconds
        efficiency_score := efficiency
        seagreen_rating := rating }, t)

deriving instance DecidableEq for Except

/-- What one tick of the sampling loop in `track_process`
(`src/seagreen.py` lines 203-208) observes: a successful reading, the
target process having exited (`psutil.NoSuchProcess`, the `ProcessGone`
condition), or a `KeyboardInterrupt` arriving during the tick. -/
inductive TickOutcome where
  | ok (reading : SampleReading)
  | processGone
  | interrupted
deriving DecidableEq

/-- The observable outcome of `track_process` (`src/seagreen.py` lines
184-217): a report printed, an error message printed by the
`except Exception` handler around report generation (lines 213-217), or
an exception propagating uncaught out of the function. -/
inductive TrackResult where
  | reported (r : SeagreenReport)
  | errorPrinted (msg : String)
  | crashed (msg : String)
deriving DecidableEq

/-- Embeds the `while` loop of `track_process` (`src/seagreen.py` lines
202-210) together with its `try ... except KeyboardInterrupt`.  The list
holds the outcome of each tick the `while` condition admits, each with
the instant at which it happens.  A `KeyboardInterrupt` is caught and
ends the loop normally; a `ProcessGone` raised by `take_snapshot` is not
matched by the `except KeyboardInterrupt` clause, so the loop aborts
with that exception pending (second component `some msg`). -/
def sampling_loop : SeagreenTracker → List (ℚ × TickOutcome) →
    SeagreenTracker × Option String
  | t, [] => (t, none)
  | t, (now, TickOutcome.ok r) :: rest =>
      sampling_loop (take_snapshot t now r).1 rest
  | t, (_, TickOutcome.processGone) :: _ => (t, some "ProcessGone")
  | t, (_, TickOutcome.interrupted) :: _ => (t, none)

/-- Embeds `track_process` (`src/seagreen.py` lines 184-217) from the
point after the tracker is constructed: `start_monitoring`, the sampling
loop, and then report generation guarded by `except Exception`.  An
exception pending from the loop propagates out of the function
(`TrackResult.crashed`); an exception raised by `generate_report` is
caught and printed (`TrackResult.errorPrinted`). -/
def track_process (t0 : SeagreenTracker) (start_now : ℚ)
    (ticks : List (ℚ × TickOutcome)) (report_now : ℚ) : TrackResult :=
  let t1 := start_monitoring t0 start_now
  match sampling_loop t1 ticks with
  | (_, some e) => TrackResult.crashed e
  | (t2, none) =>
    match (generate_report t2 report_now).1 with
    | Except.ok r => TrackResult.reported r
    | Except.error e => TrackResult.errorPrinted e

/-- The end-to-end scenario of the spec (section 8): start at instant 0,
take three snapshots with cpu `[10, 20, 30]` and memory `[100, 110, 120]`,
built through `start_monitoring` and `take_snapshot`. -/
def scenarioTracker : SeagreenTracker :=
  let t0 : SeagreenTracker :=
    { pid := 1234, process_name := "python3", snapshots := [], start_time := none }
  let t1 := start_monitoring t0 0
  let t2 := (take_snapshot t1 1 { cpu := 10, mem_mb := 100, mem_percent := 5 }).1
  let t3 := (take_snapshot t2 3 { cpu := 20, mem_mb := 110, mem_percent := 6 }).1
  (take_snapshot t3 5 { cpu := 30, mem_mb := 120, mem_percent := 7 }).1

/-- Helper: a successful `generate_report` call determines every field of
the returned report from the tracker state and the call instant, exactly
as `src/tracker.py` lines 82-125 compute them. -/
lemma generate_report_ok_fields (t : SeagreenTracker) (now : ℚ) (r : SeagreenReport)
    (h : (generate_report t now).1 = Except.ok r) :
    ∃ st, t.start_time = some st ∧ t.snapshots ≠ [] ∧
      r.process_name = t.process_name ∧
      r.duration_seconds = now - st ∧
      r.avg_cpu = (t.snapshots.map ResourceSnapshot.cpu_percent).sum
          / ((t.snapshots.map ResourceSnapshot.cpu_percent).length : ℚ) ∧
      r.peak_cpu = listMax (t.snapshots.map ResourceSnapshot.cpu_percent) ∧
      r.avg_memory_mb = (t.snapshots.map ResourceSnapshot.memory_mb).sum
          / ((t.snapshots.map ResourceSnapshot.memory_mb).length : ℚ) ∧
      r.peak_memory_mb = listMax (t.snapshots.map ResourceSnapshot.memory_mb) ∧
      r.cpu_seconds = (r.avg_cpu / 100) * r.duration_seconds ∧
      r.efficiency_score = efficiencyScore r.avg_cpu r.duration_seconds ∧
      r.seagreen_rating = seagreenRating r.efficiency_score := by
  obtain ⟨pid, name, snaps, st⟩ := t
  cases snaps with
  | nil => simp [generate_report] at h
  | cons s0 rest =>
    cases st with
    | none => simp [generate_report] at h
    | some stv =>
      simp only [generate_report] at h
      injection h with h
      subst h
      exact ⟨stv, rfl, by simp, rfl, rfl, rfl, rfl, rfl, rfl, rfl, rfl, rfl⟩

/-- Claim C1: for strictly positive duration, `generate_report` computes
`efficiency_score = max(0, min(100, 100 - avg_cpu * (duration / 60)))`
(the clamp of the spec); for duration `0` the score is `0`; for any
non-negative `avg_cpu` and duration the score lies in `[0, 100]`; and a
successful report's `efficiency_score` field is exactly this function of
its `avg_cpu` and `duration_seconds` fields. -/
theorem C1_efficiency_score_formula :
    (∀ c d : ℚ, 0 < d → efficiencyScore c d = max 0 (min 100 (100 - c * (d / 60))))
  ∧ (∀ c : ℚ, efficiencyScore c 0 = 0)
  ∧ (∀ c d : ℚ, 0 ≤ c → 0 ≤ d → 0 ≤ efficiencyScore c d ∧ efficiencyScore c d ≤ 100)
  ∧ (∀ (t : SeagreenTracker) (now : ℚ) (r : SeagreenReport),
      (generate_report t now).1 = Except.ok r →
      r.efficiency_score = efficiencyScore r.avg_cpu r.duration_seconds) := by
  refine ⟨fun c d hd => by simp [efficiencyScore, hd], fun c => by simp [efficiencyScore],
    fun c d _ _ => ?_, fun t now r h => ?_⟩
  · unfold efficiencyScore
    split
    · exact ⟨le_max_left 0 _, max_le (by norm_num) (min_le_left 100 _)⟩
    · norm_num
  · obtain ⟨st, -, -, -, -, -, -, -, -, -, heff, -⟩ := generate_report_ok_fields t now r h
    exact heff

/-- Witness for C1 at concrete inputs: `avg_cpu = 20`, `duration = 6`
gives score `98`, and duration `0` gives score `0`. -/
theorem C1_efficiency_score_formula_witness :
    efficiencyScore 20 6 = 98 ∧ efficiencyScore 20 0 = 0 ∧
      (0 ≤ efficiencyScore 20 6 ∧ efficiencyScore 20 6 ≤ 100) := by
  refine ⟨?_, C1_efficiency_score_formula.2.1 20,
    C1_efficiency_score_formula.2.2.1 20 6 (by norm_num) (by norm_num)⟩
  rw [C1_efficiency_score_formula.1 20 6 (by norm_num)]
  norm_num

/-- Claim C2: the rating is the first matching band of the ladder at
`src/tracker.py` lines 107-114, each boundary inclusive on its lower
edge; the labels "Excellent", "Good", "Fair", "Needs Improvement" of the
spec are the code's strings `🌿🌿🌿 Excellent!`, `🌿🌿 Good`, `🌿 Fair`,
`🍂 Needs Improvement`.  The four stated regions (`≥80`, `[60,80)`,
`[40,60)`, `<40`) cover every score with no overlap, so the bands
partition `[0,100]`; the boundary examples `80`, `79.999`, `59.999` and
`0` evaluate as the claim states; and a successful report's rating field
is exactly this function of its `efficiency_score` field. -/
theorem C2_rating_bands :
    (∀ e : ℚ, 80 ≤ e → seagreenRating e = "🌿🌿🌿 Excellent!")
  ∧ (∀ e : ℚ, 60 ≤ e → e < 80 → seagreenRating e = "🌿🌿 Good")
  ∧ (∀ e : ℚ, 40 ≤ e → e < 60 → seagreenRating e = "🌿 Fair")
  ∧ (∀ e : ℚ, e < 40 → seagreenRating e = "🍂 Needs Improvement")
  ∧ seagreenRating 80 = "🌿🌿🌿 Excellent!"
  ∧ seagreenRating (79999 / 1000) = "🌿🌿 Good"
  ∧ seagreenRating (59999 / 1000) = "🌿 Fair"
  ∧ seagreenRating 0 = "🍂 Needs Improvement"
  ∧ (∀ (t : SeagreenTracker) (now : ℚ) (r : SeagreenReport),
      (generate_report t now).1 = Except.ok r →
      r.seagreen_rating = seagreenRating r.efficiency_score) := by
  refine ⟨fun e he => by simp [seagreenRating, he],
    fun e he1 he2 => by simp [seagreenRating, he1, not_le.mpr he2],
    fun e he1 he2 => by simp [seagreenRating, he1,
      not_le.mpr (he2.trans (by norm_num : (60:ℚ) < 80)), not_le.mpr he2],
    fun e he => by simp [seagreenRating, not_le.mpr he,
      not_le.mpr (he.trans_le (by norm_num : (40:ℚ) ≤ 60)),
      not_le.mpr (he.trans_le (by norm_num : (40:ℚ) ≤ 80))],
    by norm_num [seagreenRating], by norm_num [seagreenRating],
    by norm_num [seagreenRating], by norm_num [seagreenRating],
    fun t now r h => ?_⟩
  obtain ⟨st, -, -, -, -, -, -, -, -, -, -, hrat⟩ := generate_report_ok_fields t now r h
  exact hrat

/-- Witness for C2 at concrete scores in each band. -/
theorem C2_rating_bands_witness :
    seagreenRating 85 = "🌿🌿🌿 Excellent!" ∧ seagreenRating 65 = "🌿🌿 Good"
    ∧ seagreenRating 45 = "🌿 Fair" ∧ seagreenRating 10 = "🍂 Needs Improvement" :=
  ⟨C2_rating_bands.1 85 (by norm_num),
   C2_rating_bands.2.1 65 (by norm_num) (by norm_num),
   C2_rating_bands.2.2.1 45 (by norm_num) (by norm_num),
   C2_rating_bands.2.2.2.1 10 (by norm_num)⟩

/-- Claim C3: with three snapshots of cpu `[10, 20, 30]` and memory
`[100, 110, 120]`, generating the report at a wall-clock elapsed time of
6 seconds after start yields `avg_cpu = 20`, `peak_cpu = 30`,
`avg_memory_mb = 110`, `peak_memory_mb = 120`, `cpu_seconds = 1.2 = 6/5`,
`efficiency_score = 98`, and the "Excellent" rating (the code's string
for that band). -/
theorem C3_end_to_end_scenario :
    (generate_report scenarioTracker 6).1 = Except.ok
      { process_name := "python3"
        duration_seconds := 6
        avg_cpu := 20
        peak_cpu := 30
        avg_memory_mb := 110
        peak_memory_mb := 120
        cpu_seconds := 6 / 5
        efficiency_score := 98
        seagreen_rating := "🌿🌿🌿 Excellent!" } := by
  norm_num [scenarioTracker, start_monitoring, take_snapshot, generate_report,
    listMax, efficiencyScore, seagreenRating]

/-- Claim C4: `generate_report` fails with the `NoData` error exactly
when the snapshot list is empty or `start_time` was never set
(`src/tracker.py` lines 79-80), and with an empty snapshot list it never
returns a report, whether or not monitoring was started. -/
theorem C4_nodata_iff (t : SeagreenTracker) (now : ℚ) :
    ((generate_report t now).1 = Except.error "No monitoring data collected!"
      ↔ (t.snapshots = [] ∨ t.start_time = none))
  ∧ (t.snapshots = [] → ∀ r, (generate_report t now).1 ≠ Except.ok r) := by
  obtain ⟨pid, name, snaps, st⟩ := t
  cases snaps <;> cases st <;> simp [generate_report]
/-- Witness for C4: a session that was started but collected no
snapshots still fails with `NoData`. -/
theorem C4_nodata_iff_witness :
    (generate_report ⟨1234, "python3", [], some 0⟩ 5).1
      = Except.error "No monitoring data collected!" :=
  (C4_nodata_iff ⟨1234, "python3", [], some 0⟩ 5).1.mpr (Or.inl rfl)

/-- Claim C6: every successful report satisfies
`cpu_seconds = (avg_cpu / 100) * duration_seconds` exactly
(`src/tracker.py` line 94). -/
theorem C6_cpu_seconds_formula (t : SeagreenTracker) (now : ℚ) (r : SeagreenReport)
    (h : (generate_report t now).1 = Except.ok r) :
    r.cpu_seconds = (r.avg_cpu / 100) * r.duration_seconds := by
  obtain ⟨st, -, -, -, -, -, -, -, -, hcs, -, -⟩ := generate_report_ok_fields t now r h
  exact hcs

/-- Witness for C6: `avg_cpu = 50` and `duration_seconds = 10` give
`cpu_seconds = 5`. -/
theorem C6_cpu_seconds_formula_witness :
    ∃ r, (generate_report ⟨1, "p", [⟨0, 50, 100, 10⟩], some 0⟩ 10).1 = Except.ok r
      ∧ r.cpu_seconds = (r.avg_cpu / 100) * r.duration_seconds
      ∧ r.avg_cpu = 50 ∧ r.duration_seconds = 10 ∧ r.cpu_seconds = 5 := by
  have h : (generate_report ⟨1, "p", [⟨0, 50, 100, 10⟩], some 0⟩ 10).1
      = Except.ok ⟨"p", 10, 50, 50, 100, 100, 5, 275 / 3, "🌿🌿🌿 Excellent!"⟩ := by
    norm_num [generate_report, listMax, efficiencyScore, seagreenRating]
  exact ⟨_, h, C6_cpu_seconds_formula _ _ _ h, by norm_num, by norm_num, by norm_num⟩

/-- Claim C9: `generate_report` is a pure reader of its session: the
tracker state after the call is the state before it, on success and on
the `NoData` failure alike, and two calls seeing the same process name,
the same snapshot list and the same elapsed duration return equal
results. -/
theorem C9_pure_reader (t : SeagreenTracker) (now : ℚ) :
    ((generate_report t now).2 = t)
  ∧ (∀ (t2 : SeagreenTracker) (now2 s s2 : ℚ),
      t.process_name = t2.process_name → t.snapshots = t2.snapshots →
      t.start_time = some s → t2.start_time = some s2 → now - s = now2 - s2 →
      (generate_report t now).1 = (generate_report t2 now2).1) := by
  constructor
  · obtain ⟨pid, name, snaps, st⟩ := t
    cases snaps <;> cases st <;> rfl
  · rintro ⟨pid2, name2, snaps2, st2⟩ now2 s s2 hname hsnaps hst hst2 hdur
    obtain ⟨pid, name, snaps, st⟩ := t
    simp only at hname hsnaps hst hst2
    subst hname hsnaps hst hst2
    cases snaps with
    | nil => rfl
    | cons s0 rest =>
      simp only [generate_report]
      rw [hdur]

/-- Witness for C9: two trackers with the same snapshots and the same
elapsed duration (5 seconds) but different absolute start instants yield
identical results, and the first call leaves its tracker unchanged. -/
theorem C9_pure_reader_witness :
    (generate_report ⟨1, "p", [⟨0, 10, 100, 5⟩], some 0⟩ 5).2
      = (⟨1, "p", [⟨0, 10, 100, 5⟩], some 0⟩ : SeagreenTracker)
    ∧ (generate_report ⟨1, "p", [⟨0, 10, 100, 5⟩], some 0⟩ 5).1
      = (generate_report ⟨2, "p", [⟨0, 10, 100, 5⟩], some 10⟩ 15).1 :=
  ⟨(C9_pure_reader ⟨1, "p", [⟨0, 10, 100, 5⟩], some 0⟩ 5).1,
   (C9_pure_reader ⟨1, "p", [⟨0, 10, 100, 5⟩], some 0⟩ 5).2
     ⟨2, "p", [⟨0, 10, 100, 5⟩], some 10⟩ 15 0 10 rfl rfl rfl rfl (by norm_num)⟩

/-- Claim C10: `start_monitoring` is total (the embedding of
`src/tracker.py` lines 56-58 is a plain assignment, so a second call
raises nothing): it silently overwrites `start_time` with the new
instant while leaving the snapshots alone, and a later successful report
measures its duration from the most recent start call. -/
theorem C10_restart_overwrites (t : SeagreenTracker) (t1 t2 : ℚ) :
    (start_monitoring (start_monitoring t t1) t2).start_time = some t2
  ∧ (start_monitoring (start_monitoring t t1) t2).snapshots = t.snapshots
  ∧ (∀ (now : ℚ) (r : SeagreenReport),
      (generate_report (start_monitoring (start_monitoring t t1) t2) now).1 = Except.ok r →
      r.duration_seconds = now - t2) := by
  refine ⟨rfl, rfl, fun now r h => ?_⟩
  obtain ⟨st, hst, -, -, hdur, -, -, -, -, -, -, -⟩ := generate_report_ok_fields _ now r h
  have h2 : st = t2 := by simpa [start_monitoring] using hst.symm
  subst h2
  exact hdur

/-- Witness for C10: starting at instant 0, restarting at instant 10 and
reporting at instant 16 yields a duration of 6 seconds, re-based to the
second start. -/
theorem C10_restart_overwrites_witness :
    (start_monitoring (start_monitoring ⟨1, "p", [⟨0, 10, 100, 5⟩], none⟩ 0) 10).start_time
      = some 10
    ∧ ∃ r, (generate_report
          (start_monitoring (start_monitoring ⟨1, "p", [⟨0, 10, 100, 5⟩], none⟩ 0) 10) 16).1
        = Except.ok r ∧ r.duration_seconds = 16 - 10 := by
  refine ⟨(C10_restart_overwrites ⟨1, "p", [⟨0, 10, 100, 5⟩], none⟩ 0 10).1, ?_⟩
  have h : (generate_report
      (start_monitoring (start_monitoring ⟨1, "p", [⟨0, 10, 100, 5⟩], none⟩ 0) 10) 16).1
      = Except.ok ⟨"p", 6, 10, 10, 100, 100, 3 / 5, 99, "🌿🌿🌿 Excellent!"⟩ := by
    norm_num [generate_report, start_monitoring, listMax, efficiencyScore, seagreenRating]
  refine ⟨_, h, ?_⟩
  have h3 := (C10_restart_overwrites ⟨1, "p", [⟨0, 10, 100, 5⟩], none⟩ 0 10).2.2 16 _ h
  simpa using h3

/-- Helper: the sum of a nonempty list is at most its length times its
maximum. -/
lemma sum_le_length_mul_listMax (l : List ℚ) (hl : l ≠ []) :
    l.sum ≤ (l.length : ℚ) * listMax l := by
  induction l with
  | nil => exact absurd rfl hl
  | cons x t ih =>
    cases t with
    | nil => simp [listMax]
    | cons y t2 =>
      have ih2 := ih (by simp)
      have h1 : x ≤ max x (listMax (y :: t2)) := le_max_left _ _
      have h2 : listMax (y :: t2) ≤ max x (listMax (y :: t2)) := le_max_right _ _
      have hn : (0 : ℚ) ≤ ((y :: t2).length : ℚ) := by positivity
      have h3 : ((y :: t2).length : ℚ) * listMax (y :: t2)
          ≤ ((y :: t2).length : ℚ) * max x (listMax (y :: t2)) :=
        mul_le_mul_of_nonneg_left h2 hn
      have h4 : (x :: y :: t2).sum = x + (y :: t2).sum := by simp
      have h5 : listMax (x :: y :: t2) = max x (listMax (y :: t2)) := rfl
      have h6 : ((x :: y :: t2).length : ℚ) = ((y :: t2).length : ℚ) + 1 := by
        push_cast [List.length_cons]
        ring
      rw [h4, h5, h6]
      nlinarith [ih2.trans h3]

/-- Helper: the sum of a nonempty list is at least its length times its
minimum. -/
lemma length_mul_listMin_le_sum (l : List ℚ) (hl : l ≠ []) :
    (l.length : ℚ) * listMin l ≤ l.sum := by
  induction l with
  | nil => exact absurd rfl hl
  | cons x t ih =>
    cases t with
    | nil => simp [listMin]
    | cons y t2 =>
      have ih2 := ih (by simp)
      have h1 : min x (listMin (y :: t2)) ≤ x := min_le_left _ _
      have h2 : min x (listMin (y :: t2)) ≤ listMin (y :: t2) := min_le_right _ _
      have hn : (0 : ℚ) ≤ ((y :: t2).length : ℚ) := by positivity
      have h3 : ((y :: t2).length : ℚ) * min x (listMin (y :: t2))
          ≤ ((y :: t2).length : ℚ) * listMin (y :: t2) :=
        mul_le_mul_of_nonneg_left h2 hn
      have h4 : (x :: y :: t2).sum = x + (y :: t2).sum := by simp
      have h5 : listMin (x :: y :: t2) = min x (listMin (y :: t2)) := rfl
      have h6 : ((x :: y :: t2).length : ℚ) = ((y :: t2).length : ℚ) + 1 := by
        push_cast [List.length_cons]
        ring
      rw [h4, h5, h6]
      nlinarith [h3.trans ih2]

/-- Helper: the arithmetic mean of a nonempty list lies between its
minimum and its maximum. -/
lemma mean_between_listMin_listMax (l : List ℚ) (hl : l ≠ []) :
    listMin l ≤ l.sum / (l.length : ℚ) ∧ l.sum / (l.length : ℚ) ≤ listMax l := by
  have hn : (0 : ℚ) < (l.length : ℚ) := by
    exact_mod_cast List.length_pos.mpr hl
  constructor
  · rw [le_div_iff₀ hn]
    have := length_mul_listMin_le_sum l hl
    nlinarith
  · rw [div_le_iff₀ hn]
    have := sum_le_length_mul_listMax l hl
    nlinarith

/-- Claim C7: in every successful report, `avg_cpu` lies between the
minimum of the cpu values and `peak_cpu` inclusive, `peak_cpu` is
exactly the maximum of the cpu values, and the same holds for the
memory columns. -/
theorem C7_avg_between_min_and_peak (t : SeagreenTracker) (now : ℚ) (r : SeagreenReport)
    (h : (generate_report t now).1 = Except.ok r) :
    listMin (t.snapshots.map ResourceSnapshot.cpu_percent) ≤ r.avg_cpu
  ∧ r.avg_cpu ≤ r.peak_cpu
  ∧ r.peak_cpu = listMax (t.snapshots.map ResourceSnapshot.cpu_percent)
  ∧ listMin (t.snapshots.map ResourceSnapshot.memory_mb) ≤ r.avg_memory_mb
  ∧ r.avg_memory_mb ≤ r.peak_memory_mb
  ∧ r.peak_memory_mb = listMax (t.snapshots.map ResourceSnapshot.memory_mb) := by
  obtain ⟨st, -, hne, -, -, havg, hpeak, havgm, hpeakm, -, -, -⟩ :=
    generate_report_ok_fields t now r h
  have hcne : t.snapshots.map ResourceSnapshot.cpu_percent ≠ [] := by
    simpa using hne
  have hmne : t.snapshots.map ResourceSnapshot.memory_mb ≠ [] := by
    simpa using hne
  have hc := mean_between_listMin_listMax _ hcne
  have hm := mean_between_listMin_listMax _ hmne
  refine ⟨havg ▸ hc.1, ?_, hpeak, havgm ▸ hm.1, ?_, hpeakm⟩
  · rw [havg, hpeak]
    exact hc.2
  · rw [havgm, hpeakm]
    exact hm.2

/-- Witness for C7: cpu values `[10, 30]` and memory values `[100, 120]`
give `avg_cpu = 20` between `10` and `peak_cpu = 30`, and
`avg_memory_mb = 110` between `100` and `peak_memory_mb = 120`. -/
theorem C7_avg_between_min_and_peak_witness :
    ∃ r, (generate_report ⟨1, "q", [⟨0, 10, 100, 5⟩, ⟨1, 30, 120, 6⟩], some 0⟩ 6).1
        = Except.ok r
      ∧ (listMin ((⟨1, "q", [⟨0, 10, 100, 5⟩, ⟨1, 30, 120, 6⟩], some 0⟩
            : SeagreenTracker).snapshots.map ResourceSnapshot.cpu_percent) ≤ r.avg_cpu
        ∧ r.avg_cpu ≤ r.peak_cpu
        ∧ r.peak_cpu = listMax ((⟨1, "q", [⟨0, 10, 100, 5⟩, ⟨1, 30, 120, 6⟩], some 0⟩
            : SeagreenTracker).snapshots.map ResourceSnapshot.cpu_percent)
        ∧ listMin ((⟨1, "q", [⟨0, 10, 100, 5⟩, ⟨1, 30, 120, 6⟩], some 0⟩
            : SeagreenTracker).snapshots.map ResourceSnapshot.memory_mb) ≤ r.avg_memory_mb
        ∧ r.avg_memory_mb ≤ r.peak_memory_mb
        ∧ r.peak_memory_mb = listMax ((⟨1, "q", [⟨0, 10, 100, 5⟩, ⟨1, 30, 120, 6⟩], some 0⟩
            : SeagreenTracker).snapshots.map ResourceSnapshot.memory_mb)) := by
  have h : (generate_report ⟨1, "q", [⟨0, 10, 100, 5⟩, ⟨1, 30, 120, 6⟩], some 0⟩ 6).1
      = Except.ok ⟨"q", 6, 20, 30, 110, 120, 6 / 5, 98, "🌿🌿🌿 Excellent!"⟩ := by
    norm_num [generate_report, listMax, efficiencyScore, seagreenRating]
  exact ⟨_, h, C7_avg_between_min_and_peak _ _ _ h⟩

/-- Counterexample for C8 as stated: the efficiency score is not
monotonically non-increasing in the duration over the full domain
`duration_seconds ≥ 0`.  At `avg_cpu = 0` the score at duration `0` is
`0` (the special case of `src/tracker.py` lines 103-104) while the score
at duration `60` is `100`. -/
theorem C8_monotonicity_counterexample :
    ¬ (∀ c : ℚ, 0 ≤ c → ∀ d1 d2 : ℚ, 0 ≤ d1 → d1 ≤ d2 →
        efficiencyScore c d2 ≤ efficiencyScore c d1) := by
  intro hmono
  have h := hmono 0 le_rfl 0 60 le_rfl (by norm_num)
  norm_num [efficiencyScore] at h

/-- Claim C8 amended: the efficiency score is monotonically
non-increasing in the duration on the strictly positive durations (for
any fixed `avg_cpu ≥ 0`), and monotonically non-increasing in `avg_cpu`
on `avg_cpu ≥ 0` (for any fixed `duration ≥ 0`); at duration `0` the
score is the constant `0`, which breaks monotonicity at the left
endpoint of the duration domain. -/
theorem C8_monotonic_amended :
    (∀ c : ℚ, 0 ≤ c → ∀ d1 d2 : ℚ, 0 < d1 → d1 ≤ d2 →
        efficiencyScore c d2 ≤ efficiencyScore c d1)
  ∧ (∀ d : ℚ, 0 ≤ d → ∀ c1 c2 : ℚ, 0 ≤ c1 → c1 ≤ c2 →
        efficiencyScore c2 d ≤ efficiencyScore c1 d)
  ∧ (∀ c : ℚ, efficiencyScore c 0 = 0) := by
  refine ⟨fun c hc d1 d2 hd1 hd => ?_, fun d hd c1 c2 hc1 hc => ?_,
    fun c => by simp [efficiencyScore]⟩
  · have hd2 : 0 < d2 := lt_of_lt_of_le hd1 hd
    rw [efficiencyScore, efficiencyScore, if_pos hd2, if_pos hd1]
    have key : 100 - c * (d2 / 60) ≤ 100 - c * (d1 / 60) := by nlinarith
    exact max_le_max le_rfl (min_le_min le_rfl key)
  · rcases eq_or_lt_of_le hd with h0 | hpos
    · rw [efficiencyScore, efficiencyScore, if_neg (by rw [← h0]; exact lt_irrefl 0),
        if_neg (by rw [← h0]; exact lt_irrefl 0)]
    · rw [efficiencyScore, efficiencyScore, if_pos hpos, if_pos hpos]
      have key : 100 - c2 * (d / 60) ≤ 100 - c1 * (d / 60) := by nlinarith
      exact max_le_max le_rfl (min_le_min le_rfl key)

/-- Witness for the amended C8: longer duration `20 ≥ 10` lowers the
score at `avg_cpu = 5`, higher cpu `7 ≥ 3` lowers the score at duration
`10`, and duration `0` gives score `0`. -/
theorem C8_monotonic_amended_witness :
    efficiencyScore 5 20 ≤ efficiencyScore 5 10
    ∧ efficiencyScore 7 10 ≤ efficiencyScore 3 10
    ∧ efficiencyScore 5 0 = 0 :=
  ⟨C8_monotonic_amended.1 5 (by norm_num) 10 20 (by norm_num) (by norm_num),
   C8_monotonic_amended.2.1 10 (by norm_num) 3 7 (by norm_num) (by norm_num),
   C8_monotonic_amended.2.2 5⟩

/-- Helper: a `ProcessGone` tick aborts the sampling loop with the
exception pending, after any run of successful ticks. -/
lemma sampling_loop_gone :
    ∀ (pre : List (ℚ × TickOutcome)),
    (∀ p ∈ pre, ∃ now r, p = (now, TickOutcome.ok r)) →
    ∀ (t : SeagreenTracker) (g : ℚ) (rest : List (ℚ × TickOutcome)),
    ∃ t2, sampling_loop t (pre ++ (g, TickOutcome.processGone) :: rest)
      = (t2, some "ProcessGone") := by
  intro pre
  induction pre with
  | nil => exact fun _ t g rest => ⟨t, rfl⟩
  | cons p pre2 ih =>
    intro hpre t g rest
    obtain ⟨now, r, hp⟩ := hpre p (List.mem_cons_self p pre2)
    subst hp
    simpa [sampling_loop] using
      ih (fun q hq => hpre q (List.mem_cons_of_mem _ hq)) (take_snapshot t now r).1 g rest

/-- Counterexample for C5 as stated: with one snapshot already collected
and the target exiting at the next tick, `track_process` does not fall
through to report generation — the `ProcessGone` exception is not
matched by the loop's `except KeyboardInterrupt` clause
(`src/seagreen.py` lines 209-210) and propagates out as a fatal error,
so no report is produced. -/
theorem C5_counterexample :
    track_process ⟨1234, "python3", [], none⟩ 0
        [(1, TickOutcome.ok ⟨10, 100, 5⟩), (2, TickOutcome.processGone)] 6
      = TrackResult.crashed "ProcessGone"
    ∧ ¬ ∃ r, track_process ⟨1234, "python3", [], none⟩ 0
        [(1, TickOutcome.ok ⟨10, 100, 5⟩), (2, TickOutcome.processGone)] 6
      = TrackResult.reported r := by
  have h : track_process ⟨1234, "python3", [], none⟩ 0
      [(1, TickOutcome.ok ⟨10, 100, 5⟩), (2, TickOutcome.processGone)] 6
      = TrackResult.crashed "ProcessGone" := rfl
  refine ⟨h, ?_⟩
  rintro ⟨r, hr⟩
  rw [h] at hr
  exact TrackResult.noConfusion hr

/-- Claim C5 amended: when the target exits mid-sampling, the
`ProcessGone` failure of `take_snapshot` is caught by nothing in
`track_process` (the loop catches only `KeyboardInterrupt`, and the
`except` around report generation is a separate later statement), so it
propagates to the caller as a fatal error regardless of how many
snapshots were already collected, and report generation is never
reached on that path. -/
theorem C5_processGone_crashes (t0 : SeagreenTracker) (start_now : ℚ)
    (pre : List (ℚ × TickOutcome))
    (hpre : ∀ p ∈ pre, ∃ now r, p = (now, TickOutcome.ok r))
    (g : ℚ) (rest : List (ℚ × TickOutcome)) (report_now : ℚ) :
    track_process t0 start_now (pre ++ (g, TickOutcome.processGone) :: rest) report_now
      = TrackResult.crashed "ProcessGone" := by
  obtain ⟨t2, h⟩ := sampling_loop_gone pre hpre (start_monitoring t0 start_now) g rest
  simp [track_process, h]

/-- Witness for the amended C5: one successful tick, then the process
exits; the call crashes with the pending `ProcessGone`. -/
theorem C5_processGone_crashes_witness :
    track_process ⟨1, "p", [], none⟩ 0
        ([(1, TickOutcome.ok ⟨10, 100, 5⟩)] ++ (2, TickOutcome.processGone) :: []) 6
      = TrackResult.crashed "ProcessGone" :=
  C5_processGone_crashes ⟨1, "p", [], none⟩ 0 [(1, TickOutcome.ok ⟨10, 100, 5⟩)]
    (fun p hp => ⟨1, ⟨10, 100, 5⟩, by simpa using hp⟩) 2 [] 6
